import Mathlib

/-!
Shallow embedding of `src/bvp/api/v1_3/implementations.py` (flexmeasures / bvp
API v1.3): the schedule-retrieval handler `get_device_message_response` and the
UDI-event ingestion handler `post_udi_event_response`.

Modelling conventions:
- datetimes and durations are `Int` (minutes); the fixed resolution
  `timedelta(minutes=15)` becomes the integer `15`;
- power/SOC values are `Rat` (the kWh→MWh division by 1000 is exact);
- the SQL `Power` table is a `List PowerRow`, queried by filtering; SQL
  comparison with a NULL datetime yields no rows, so a `none` schedule start
  makes the query empty;
- the rq job fetched by `Job.fetch` is `Option Job` (`none` models
  `NoSuchJobError`); `job.dependency` is `Option DepJob` (`none` models the
  `NoSuchJobError` raised while resolving the dependency);
- Python string formatting of datetimes/timedeltas is rendered with `toString`
  on the integer model;
- `create_scheduling_job` is an external call modelled by a boolean
  `dispatchOk`: `false` means the call raised, so the handler never reaches the
  asset-state assignments that follow it.
-/

namespace Bvp

/-- One row of the `Power` table: a stored computed value for an asset,
attributed to a data source (`bvp.data.models.assets.Power`). -/
structure PowerRow where
  asset_id : Nat
  data_source_id : Nat
  datetime : Int
  value : Rat
deriving DecidableEq

/-- The device record (`bvp.data.models.assets.Asset`), restricted to the
fields the two handlers read or write: the asset type name and the last-known
SOC state `(soc_datetime, soc_udi_event_id, soc_in_mwh)`. -/
structure Asset where
  id : Nat
  asset_type_name : String
  soc_datetime : Option Int
  soc_udi_event_id : Option Int
  soc_in_mwh : Option Rat
deriving DecidableEq

/-- rq job lifecycle states probed in order by the handler via `is_finished`,
`is_failed`, `is_started`, `is_queued`, `is_deferred`; `other` is the final
`else` branch. -/
inductive JobStatus
  | finished
  | failed
  | started
  | queued
  | deferred
  | other
deriving DecidableEq

/-- A Python exception as the handler consumes it: `type(e).__name__` and
`str(e)`. -/
structure Exc where
  typeName : String
  text : String
deriving DecidableEq

/-- The prerequisite job of a deferred job, as consumed by the handler:
its `status` string and its `id`. -/
structure DepJob where
  id : String
  status : String
deriving DecidableEq

/-- An rq job as fetched by `Job.fetch(event)`: its status, the optional
`exception` entry of `job.meta`, the dependency of a deferred job (`none`
models `NoSuchJobError` on access), and the `start` entry of `job.kwargs`
(the spec's job-metadata start time for a finished job). -/
structure Job where
  status : JobStatus
  meta_exception : Option Exc
  dependency : Option DepJob
  kwargs_start : Int
deriving DecidableEq

/-- Responses the retrieval handler can produce for one event
(`invalid_domain`, `unrecognized_event_type`, `unrecognized_event`,
`unknown_schedule`, or the processed schedule payload). -/
inductive GetResponse
  | invalid_domain (msg : String)
  | unrecognized_event_type (etype : String)
  | unrecognized_event (event_id : Int) (etype : String)
  | unknown_schedule (msg : String)
  | processed (values : List Rat) (start : Int) (duration : Int)
deriving DecidableEq

/-- `resolution = timedelta(minutes=15)`, in minutes. -/
def resolution : Int := 15

/-- `scheduler_label = "schedule by Seita"`. -/
def schedulerLabel : String := "schedule by Seita"

/-- Message qualifier set on the fallback branch (no job found, event id
matches the asset's last known event id). -/
def fallbackMsg : String :=
  "Your UDI event is the most recent event for this device, but "

/-- Message qualifier set when the fetched job is finished. -/
def processedMsg : String :=
  "A scheduling job has been processed based on your UDI event, but "

/-- The default diagnostic used when a failed job stored no exception in its
meta data. -/
def noExceptionText : String :=
  "The job does not state why it failed. The worker may be missing an exception handler, or its exception handler is not storing the exception as job meta data."

/-- `f"Scheduling job failed with {type(e).__name__}: {e}"`. -/
def failedMsg (e : Exc) : String :=
  "Scheduling job failed with " ++ e.typeName ++ ": " ++ e.text

/-- Lines 86-127 of the retrieval handler: resolve the schedule anchor start
from the job store, or short-circuit with a terminal response. On success
returns the schedule start (`none` only when the fallback hit an asset with no
stored `soc_datetime`) and the message qualifier built so far. -/
def jobStateTranslate (asset : Asset) (event_id : Int) (event_type : String)
    (jobLookup : Option Job) : Except GetResponse (Option Int × String) :=
  match jobLookup with
  | none =>
    if some event_id = asset.soc_udi_event_id then
      .ok (asset.soc_datetime, fallbackMsg)
    else
      .error (.unrecognized_event event_id event_type)
  | some job =>
    match job.status with
    | .finished => .ok (some job.kwargs_start, processedMsg)
    | .failed =>
      .error (.unknown_schedule
        (failedMsg (job.meta_exception.getD ⟨"Exception", noExceptionText⟩)))
    | .started => .error (.unknown_schedule "Scheduling job in progress.")
    | .queued => .error (.unknown_schedule "Scheduling job waiting to be processed.")
    | .deferred =>
      match job.dependency with
      | none =>
        .error (.unknown_schedule "Scheduling job waiting for unknown job to be processed.")
      | some dep =>
        .error (.unknown_schedule
          ("Scheduling job waiting for " ++ dep.status ++ " job \"" ++ dep.id
            ++ "\" to be processed."))
    | .other => .error (.unknown_schedule "Scheduling job has an unknown status.")

/-- The `Power.query` of lines 137-143: rows of the given asset and data
source with `schedule_start <= datetime < schedule_start + planning_horizon`.
A `none` start models the SQL NULL comparison, which selects nothing. -/
def powerQuery (powerRows : List PowerRow) (a_id : Nat) (src_id : Nat)
    (schedule_start : Option Int) (planning_horizon : Int) : List PowerRow :=
  match schedule_start with
  | none => []
  | some s =>
    powerRows.filter (fun r =>
      decide (r.asset_id = a_id ∧ r.data_source_id = src_id ∧
        s ≤ r.datetime ∧ r.datetime < s + planning_horizon))

/-- Lines 129-157 of the retrieval handler: resolve the scheduler data source,
query the stored schedule over the planning window, and trim start/duration to
the stored span (`schedule[start : start + duration - resolution]` is a
label-based pandas slice, inclusive at both ends). -/
def scheduleAssemble (duration : Int) (planning_horizon : Int) (asset : Asset)
    (schedule_start : Option Int) (message : String)
    (sourceLookup : Option Nat) (powerRows : List PowerRow) : GetResponse :=
  match sourceLookup with
  | none =>
    .unknown_schedule
      (message ++ "no data is known labeled \"" ++ schedulerLabel ++ "\".")
  | some src_id =>
    match powerQuery powerRows asset.id src_id schedule_start planning_horizon with
    | [] =>
      .unknown_schedule (message ++ "the schedule was not found in the database.")
    | r0 :: rest =>
      let start := r0.datetime
      let lastTs := (rest.getLastD r0).datetime
      let newDuration := min duration (lastTs + resolution - start)
      let trimmed := (r0 :: rest).filter (fun r =>
        decide (start ≤ r.datetime ∧ r.datetime ≤ start + newDuration - resolution))
      .processed (trimmed.map (fun r => r.value)) start newDuration

/-- The per-event core of `get_device_message_response` (lines 76-157), given
the already-resolved asset and parsed entity address. `cfg_horizon` is the
`BVP_PLANNING_HORIZON` configuration value; `duration` is the client-requested
duration; `planning_horizon = min(duration, cfg_horizon)` as on line 48. -/
def get_device_message_core (cfg_horizon : Int) (duration : Int) (asset : Asset)
    (event_id : Int) (event_type : String) (jobLookup : Option Job)
    (sourceLookup : Option Nat) (powerRows : List PowerRow) : GetResponse :=
  let planning_horizon := min duration cfg_horizon
  if asset.asset_type_name ≠ "battery" ∧ asset.asset_type_name ≠ "charging_station" then
    .invalid_domain
      ("API version 1.3 only supports device messages for batteries and charging stations. Asset ID:"
        ++ toString asset.id ++ " is not a battery or charging station.")
  else if event_type ≠ "soc" ∧ event_type ≠ "soc-with-targets" then
    .unrecognized_event_type event_type
  else
    match jobStateTranslate asset event_id event_type jobLookup with
    | .error e => e
    | .ok (schedule_start, message) =>
      scheduleAssemble duration planning_horizon asset schedule_start message
        sourceLookup powerRows

/-- Outcome of `parse_isodate_str` plus the surrounding presence/timezone
checks for a datetime field: missing from the form, unparsable, parsed but
timezone-naive, or fully parsed. -/
inductive ParsedDT
  | missing
  | unparsable
  | naive
  | ok (t : Int)
deriving DecidableEq

/-- One client-supplied target point of a `soc-with-targets` event. -/
structure TargetForm where
  value : Option Rat
  datetime : ParsedDT
deriving DecidableEq

/-- The three fields yielded by `validate_entity_address` for an event. -/
structure EventAddr where
  asset_id : Nat
  event_id : Int
  event_type : String
deriving DecidableEq

/-- The ingestion request form after generic shape validation: the event
datetime, the event address (`none` = field absent, `some none` = unparsable),
the SOC value, and the optional target list. -/
structure UdiForm where
  datetime : ParsedDT
  event : Option (Option EventAddr)
  value : Option Rat
  targets : Option (List TargetForm)
deriving DecidableEq

/-- Responses of the ingestion handler. `dispatch_failure` models an exception
raised by `create_scheduling_job` propagating out of the handler. -/
inductive PostResponse
  | invalid_datetime (msg : String)
  | invalid_timezone (msg : String)
  | invalid_domain (msg : String)
  | unrecognized_event_type (etype : String)
  | unrecognized_connection_group
  | outdated_event_id (new_event_id : Int) (old_event_id : Int)
  | ptus_incomplete (msg : String)
  | incomplete_event (event_id : Int) (etype : String)
  | dispatch_failure
  | request_processed
deriving DecidableEq

/-- The stale-datetime rejection message of lines 229-232, with the integer
time model standing in for the Python datetime rendering. -/
def staleMsg (datetime d : Int) : String :=
  "The date of the requested UDI event (" ++ toString datetime
    ++ ") is earlier than the latest known date (" ++ toString d ++ ")."

/-- The target-beyond-horizon rejection message of lines 294-295. -/
def targetExceedsMsg (end_of_schedule : Int) (cfg_horizon : Int) : String :=
  "Target datetime exceeds " ++ toString end_of_schedule
    ++ ". Maximum scheduling horizon is " ++ toString cfg_horizon ++ "."

/-- Lines 236-239: reject with `outdated_event_id` when the asset's stored
event id is set and is `>=` the incoming event id. -/
def outdatedCheck (asset : Asset) (event_id : Int) : Option PostResponse :=
  match asset.soc_udi_event_id with
  | some old => if old ≥ event_id then some (.outdated_event_id event_id old) else none
  | none => none

/-- Lines 224-239: the event-ordering checks, skipped entirely when
`BVP_MODE == "play"` (`mode_play`). The stale-datetime check runs first and
only when a previous `soc_datetime` is stored. -/
def orderingReject (mode_play : Bool) (asset : Asset) (datetime : Int)
    (event_id : Int) : Option PostResponse :=
  if mode_play then none
  else
    match asset.soc_datetime with
    | some d =>
      if datetime < d then some (.invalid_datetime (staleMsg datetime d))
      else outdatedCheck asset event_id
    | none => outdatedCheck asset event_id

/-- The per-target loop of lines 266-302: for each target require a value,
then a parsed timezone-aware datetime, reject datetimes strictly beyond
`end_of_schedule`, and record the accepted `(datetime, value)` points in
order (`kWh` values are divided by 1000). -/
def processTargets (unit : String) (cfg_horizon : Int) (end_of_schedule : Int) :
    List TargetForm → List (Int × Rat) → Except PostResponse (List (Int × Rat))
  | [], acc => .ok acc
  | t :: ts, acc =>
    match t.value with
    | none => .error (.ptus_incomplete "Target missing value parameter.")
    | some v =>
      let target_value := if unit = "kWh" then v / 1000 else v
      match t.datetime with
      | .missing => .error (.invalid_datetime "Target missing datetime parameter.")
      | .unparsable =>
        .error (.invalid_datetime "Cannot parse target datetime string as iso date")
      | .naive =>
        .error (.invalid_timezone "Target datetime should explicitly state a timezone.")
      | .ok td =>
        if td > end_of_schedule then
          .error (.invalid_datetime (targetExceedsMsg end_of_schedule cfg_horizon))
        else
          processTargets unit cfg_horizon end_of_schedule ts (acc ++ [(td, target_value)])

/-- The core of `post_udi_event_response` (lines 177-321), after the
role/type/unit decorators: validate the form, enforce event ordering, build
the target series, dispatch the scheduling job, and only then write the new
`(soc_datetime, soc_udi_event_id, soc_in_mwh)` state onto the asset. Returns
the response together with the asset-store state after the call
(`assetLookup` unchanged on every non-success path). -/
def post_udi_event (mode_play : Bool) (cfg_horizon : Int) (unit : String)
    (form : UdiForm) (assetLookup : Option Asset) (can_access : Bool)
    (dispatchOk : Bool) : PostResponse × Option Asset :=
  match form.datetime with
  | .missing => (.invalid_datetime "Missing datetime parameter.", assetLookup)
  | .unparsable => (.invalid_datetime "Cannot parse datetime string as iso date", assetLookup)
  | .naive => (.invalid_timezone "Datetime should explicitly state a timezone.", assetLookup)
  | .ok datetime =>
    match form.event with
    | none => (.invalid_domain "No event identifier sent.", assetLookup)
    | some none => (.invalid_domain "Cannot parse event.", assetLookup)
    | some (some ea) =>
      if ea.event_type ≠ "soc" ∧ ea.event_type ≠ "soc-with-targets" then
        (.unrecognized_event_type ea.event_type, assetLookup)
      else
        match assetLookup with
        | none => (.unrecognized_connection_group, none)
        | some asset =>
          if can_access = false then (.unrecognized_connection_group, some asset)
          else if asset.asset_type_name ≠ "battery" ∧ asset.asset_type_name ≠ "charging_station" then
            (.invalid_domain
              ("API version 1.3 only supports UDI events for batteries and charging stations. Asset ID:"
                ++ toString ea.asset_id ++ " is not a battery or charging station."),
              some asset)
          else
            match orderingReject mode_play asset datetime ea.event_id with
            | some r => (r, some asset)
            | none =>
              match form.value with
              | none => (.ptus_incomplete "", some asset)
              | some rawValue =>
                match (if ea.event_type = "soc-with-targets" then
                    match form.targets with
                    | none =>
                      Except.error (PostResponse.incomplete_event ea.event_id ea.event_type)
                    | some ts => processTargets unit cfg_horizon (datetime + cfg_horizon) ts []
                  else Except.ok []) with
                | .error r => (r, some asset)
                | .ok _soc_targets =>
                  if dispatchOk = false then (.dispatch_failure, some asset)
                  else
                    (.request_processed,
                      some { asset with
                        soc_datetime := some datetime,
                        soc_udi_event_id := some ea.event_id,
                        soc_in_mwh := some (if unit = "kWh" then rawValue / 1000 else rawValue) })

/-! Concrete fixtures used by counterexamples and witnesses. -/

/-- A battery asset with no recorded last-known event state. -/
def asset0 : Asset := ⟨1, "battery", none, none, none⟩

/-- A battery asset with last event datetime 200 and last event id 9. -/
def asset1 : Asset := ⟨1, "battery", some 200, some 9, none⟩

/-- A finished job whose `kwargs["start"]` is 0. -/
def job0 : Job := ⟨.finished, none, none, 0⟩

/-- A started job. -/
def jobStarted : Job := ⟨.started, none, none, 0⟩

/-- A failed job with a stored exception in its meta data. -/
def jobFailed : Job := ⟨.failed, some ⟨"TimeoutError", "worker exceeded 30s"⟩, none, 0⟩

/-- C8: for every job whose state is finished, the translator takes the
schedule anchor from the job's stored `start` metadata (`job.kwargs["start"]`)
and sets the "job already processed" message qualifier. -/
theorem C8_finished_anchor (asset : Asset) (eid : Int) (etype : String) (job : Job)
    (hfin : job.status = .finished) :
    jobStateTranslate asset eid etype (some job) = .ok (some job.kwargs_start, processedMsg) := by
  simp [jobStateTranslate, hfin]

/-- Witness for C8 at a concrete finished job. -/
theorem C8_finished_anchor_witness :
    jobStateTranslate asset0 3 "soc" (some job0) = .ok (some 0, processedMsg) :=
  C8_finished_anchor asset0 3 "soc" job0 rfl

/-- C5: when the job lookup finds nothing, retrieval falls back to the
device's last event datetime as anchor (with the "most recent event"
qualifier) exactly when the reference's event id equals the device's stored
last event id; otherwise it fails with `unrecognized_event`. -/
theorem C5_fallback (asset : Asset) (eid : Int) (etype : String) :
    (asset.soc_udi_event_id = some eid →
      jobStateTranslate asset eid etype none = .ok (asset.soc_datetime, fallbackMsg)) ∧
    (asset.soc_udi_event_id ≠ some eid →
      jobStateTranslate asset eid etype none = .error (.unrecognized_event eid etype)) := by
  constructor
  · intro h
    simp [jobStateTranslate, h]
  · intro h
    simp only [jobStateTranslate]
    rw [if_neg (fun hc => h hc.symm)]

/-- Witness for C5: both branches at concrete assets. -/
theorem C5_fallback_witness :
    jobStateTranslate asset1 9 "soc" none = .ok (some 200, fallbackMsg) ∧
    jobStateTranslate asset1 8 "soc" none = .error (.unrecognized_event 8 "soc") :=
  ⟨(C5_fallback asset1 9 "soc").1 rfl, (C5_fallback asset1 8 "soc").2 (by decide)⟩

/-- C6: for every job in a non-finished, non-failed state (started, queued,
deferred, or any other), retrieval fails with an `unknown_schedule`
("not ready") response and returns no schedule values; for a deferred job the
message names the prerequisite job's id and status, or says the job is
waiting for an unknown job when the prerequisite lookup itself fails. -/
theorem C6_not_ready (cfg duration : Int) (asset : Asset) (eid : Int) (etype : String)
    (job : Job) (src : Option Nat) (rows : List PowerRow)
    (hcls : asset.asset_type_name = "battery" ∨ asset.asset_type_name = "charging_station")
    (hety : etype = "soc" ∨ etype = "soc-with-targets") :
    (job.status = .started →
      get_device_message_core cfg duration asset eid etype (some job) src rows
        = .unknown_schedule "Scheduling job in progress.") ∧
    (job.status = .queued →
      get_device_message_core cfg duration asset eid etype (some job) src rows
        = .unknown_schedule "Scheduling job waiting to be processed.") ∧
    (job.status = .deferred → job.dependency = none →
      get_device_message_core cfg duration asset eid etype (some job) src rows
        = .unknown_schedule "Scheduling job waiting for unknown job to be processed.") ∧
    (∀ dep, job.status = .deferred → job.dependency = some dep →
      get_device_message_core cfg duration asset eid etype (some job) src rows
        = .unknown_schedule
            ("Scheduling job waiting for " ++ dep.status ++ " job \"" ++ dep.id
              ++ "\" to be processed.")) ∧
    (job.status = .other →
      get_device_message_core cfg duration asset eid etype (some job) src rows
        = .unknown_schedule "Scheduling job has an unknown status.") := by
  have hc1 : ¬(asset.asset_type_name ≠ "battery" ∧ asset.asset_type_name ≠ "charging_station") := by
    rcases hcls with h | h <;> simp [h]
  have hc2 : ¬(etype ≠ "soc" ∧ etype ≠ "soc-with-targets") := by
    rcases hety with h | h <;> simp [h]
  refine ⟨fun hs => ?_, fun hs => ?_, fun hs hdep => ?_, fun dep hs hdep => ?_, fun hs => ?_⟩ <;>
    simp [get_device_message_core, jobStateTranslate, hc1, hc2, hs, *]

/-- Witness for C6 at a concrete started job. -/
theorem C6_not_ready_witness :
    get_device_message_core 2880 360 asset0 3 "soc" (some jobStarted) none []
      = .unknown_schedule "Scheduling job in progress." :=
  (C6_not_ready 2880 360 asset0 3 "soc" jobStarted none [] (Or.inl rfl) (Or.inl rfl)).1 rfl

/-- C7: for every failed job, retrieval fails with the "scheduling job
failed" response whose message carries the stored exception (type name and
text); when no exception was stored, the message carries the diagnostic
default saying the worker did not record why it failed. -/
theorem C7_failed (cfg duration : Int) (asset : Asset) (eid : Int) (etype : String)
    (job : Job) (src : Option Nat) (rows : List PowerRow)
    (hcls : asset.asset_type_name = "battery" ∨ asset.asset_type_name = "charging_station")
    (hety : etype = "soc" ∨ etype = "soc-with-targets")
    (hfail : job.status = .failed) :
    (∀ e, job.meta_exception = some e →
      get_device_message_core cfg duration asset eid etype (some job) src rows
        = .unknown_schedule ("Scheduling job failed with " ++ e.typeName ++ ": " ++ e.text)) ∧
    (job.meta_exception = none →
      get_device_message_core cfg duration asset eid etype (some job) src rows
        = .unknown_schedule ("Scheduling job failed with Exception: " ++ noExceptionText)) := by
  have hc1 : ¬(asset.asset_type_name ≠ "battery" ∧ asset.asset_type_name ≠ "charging_station") := by
    rcases hcls with h | h <;> simp [h]
  have hc2 : ¬(etype ≠ "soc" ∧ etype ≠ "soc-with-targets") := by
    rcases hety with h | h <;> simp [h]
  constructor
  · intro e he
    simp [get_device_message_core, jobStateTranslate, failedMsg, hc1, hc2, hfail, he]
  · intro he
    simp [get_device_message_core, jobStateTranslate, failedMsg, noExceptionText, hc1, hc2,
      hfail, he]

/-- Witness for C7 at the concrete failed job of end-to-end scenario C. -/
theorem C7_failed_witness :
    get_device_message_core 2880 360 asset0 3 "soc" (some jobFailed) none []
      = .unknown_schedule ("Scheduling job failed with " ++ "TimeoutError" ++ ": " ++ "worker exceeded 30s") :=
  (C7_failed 2880 360 asset0 3 "soc" jobFailed none [] (Or.inl rfl) (Or.inl rfl) rfl).1
    ⟨"TimeoutError", "worker exceeded 30s"⟩ rfl

/-- The power query selects a subsequence of the stored rows. -/
theorem powerQuery_sublist (rows : List PowerRow) (a_id src_id : Nat)
    (st : Option Int) (ph : Int) :
    List.Sublist (powerQuery rows a_id src_id st ph) rows := by
  cases st with
  | none => exact List.nil_sublist rows
  | some s => exact List.filter_sublist rows

/-- A single stored row at datetime 3000: inside the claim's window
`[0, 0 + 4320)` but outside the code's capped window `[0, 0 + 2880)`. -/
def powerRowsC1 : List PowerRow := [⟨1, 7, 3000, 5⟩]

/-- Counterexample to C1: with configured planning horizon 2880 minutes and a
requested duration of 4320 minutes, a stored value at datetime 3000 lies in
the claim's window `[anchor, anchor + requestedDuration)` — so the claim says
the query is non-empty and retrieval must not fail — yet the code caps the
query window at `min(requestedDuration, configuredHorizon)` and fails with the
schedule-not-found response. -/
theorem C1_counterexample :
    powerRowsC1.filter (fun r =>
        decide (r.asset_id = 1 ∧ r.data_source_id = 7 ∧
          (0 : Int) ≤ r.datetime ∧ r.datetime < 0 + 4320)) ≠ [] ∧
    get_device_message_core 2880 4320 asset0 3 "soc" (some job0) (some 7) powerRowsC1
      = .unknown_schedule (processedMsg ++ "the schedule was not found in the database.") := by
  constructor
  · decide
  · rfl

/-- C1 amended: the assembler queries the store for computed values whose
datetime lies in `[anchor, anchor + min(requestedDuration,
configuredPlanningHorizon))`, and fails with the schedule-not-found response
exactly when that query returns no values (here stated for a finished job,
whose anchor is the job's stored start). -/
theorem C1_amended (cfg duration : Int) (asset : Asset) (eid : Int) (etype : String)
    (job : Job) (src : Nat) (rows : List PowerRow)
    (hcls : asset.asset_type_name = "battery" ∨ asset.asset_type_name = "charging_station")
    (hety : etype = "soc" ∨ etype = "soc-with-targets")
    (hfin : job.status = .finished) :
    (powerQuery rows asset.id src (some job.kwargs_start) (min duration cfg) = [] →
      get_device_message_core cfg duration asset eid etype (some job) (some src) rows
        = .unknown_schedule (processedMsg ++ "the schedule was not found in the database.")) ∧
    (powerQuery rows asset.id src (some job.kwargs_start) (min duration cfg) ≠ [] →
      ∃ vals st dur,
        get_device_message_core cfg duration asset eid etype (some job) (some src) rows
          = .processed vals st dur) := by
  have hc1 : ¬(asset.asset_type_name ≠ "battery" ∧ asset.asset_type_name ≠ "charging_station") := by
    rcases hcls with h | h <;> simp [h]
  have hc2 : ¬(etype ≠ "soc" ∧ etype ≠ "soc-with-targets") := by
    rcases hety with h | h <;> simp [h]
  constructor
  · intro hq
    simp [get_device_message_core, jobStateTranslate, scheduleAssemble, hc1, hc2, hfin, hq]
  · intro hne
    rcases hq : powerQuery rows asset.id src (some job.kwargs_start) (min duration cfg) with
      _ | ⟨r0, rest⟩
    · exact absurd hq hne
    · refine ⟨((r0 :: rest).filter (fun r =>
          decide (r0.datetime ≤ r.datetime ∧
            r.datetime ≤ r0.datetime
              + min duration ((rest.getLastD r0).datetime + resolution - r0.datetime)
              - resolution))).map (fun r => r.value),
        r0.datetime,
        min duration ((rest.getLastD r0).datetime + resolution - r0.datetime), ?_⟩
      simp [get_device_message_core, jobStateTranslate, scheduleAssemble, hc1, hc2, hfin, hq]

/-- Witness for C1 amended: an empty store yields the not-found failure. -/
theorem C1_amended_witness :
    get_device_message_core 2880 360 asset0 3 "soc" (some job0) (some 7) []
      = .unknown_schedule (processedMsg ++ "the schedule was not found in the database.") :=
  (C1_amended 2880 360 asset0 3 "soc" job0 7 [] (Or.inl rfl) (Or.inl rfl) rfl).1 rfl

/-- C2: when the storage query returns a non-empty (chronologically ordered)
sequence, the handler sets `start` to the earliest returned timestamp, sets
the returned duration to `min(requestedDuration, lastTimestamp + resolution -
start)`, and truncates the values to the timestamps in `[start, start +
duration - resolution]` inclusive; the returned duration exceeds neither the
requested duration nor the stored span. -/
theorem C2_trim (cfg duration : Int) (asset : Asset) (eid : Int) (etype : String)
    (job : Job) (src : Nat) (rows : List PowerRow) (r0 : PowerRow) (rest : List PowerRow)
    (hcls : asset.asset_type_name = "battery" ∨ asset.asset_type_name = "charging_station")
    (hety : etype = "soc" ∨ etype = "soc-with-targets")
    (hfin : job.status = .finished)
    (hsort : rows.Pairwise (fun a b => a.datetime ≤ b.datetime))
    (hq : powerQuery rows asset.id src (some job.kwargs_start) (min duration cfg)
      = r0 :: rest) :
    get_device_message_core cfg duration asset eid etype (some job) (some src) rows
      = .processed
          (((r0 :: rest).filter (fun r =>
              decide (r0.datetime ≤ r.datetime ∧
                r.datetime ≤ r0.datetime
                  + min duration ((rest.getLastD r0).datetime + resolution - r0.datetime)
                  - resolution))).map (fun r => r.value))
          r0.datetime
          (min duration ((rest.getLastD r0).datetime + resolution - r0.datetime)) ∧
    (∀ r ∈ r0 :: rest, r0.datetime ≤ r.datetime) ∧
    min duration ((rest.getLastD r0).datetime + resolution - r0.datetime) ≤ duration ∧
    min duration ((rest.getLastD r0).datetime + resolution - r0.datetime)
      ≤ (rest.getLastD r0).datetime + resolution - r0.datetime := by
  have hc1 : ¬(asset.asset_type_name ≠ "battery" ∧ asset.asset_type_name ≠ "charging_station") := by
    rcases hcls with h | h <;> simp [h]
  have hc2 : ¬(etype ≠ "soc" ∧ etype ≠ "soc-with-targets") := by
    rcases hety with h | h <;> simp [h]
  refine ⟨?_, ?_, min_le_left _ _, min_le_right _ _⟩
  · simp [get_device_message_core, jobStateTranslate, scheduleAssemble, hc1, hc2, hfin, hq]
  · have hp : (powerQuery rows asset.id src (some job.kwargs_start)
        (min duration cfg)).Pairwise (fun a b => a.datetime ≤ b.datetime) :=
      List.Pairwise.sublist (powerQuery_sublist rows asset.id src _ _) hsort
    rw [hq] at hp
    rcases List.pairwise_cons.mp hp with ⟨h0, _⟩
    intro r hr
    rcases List.mem_cons.mp hr with h | h
    · rw [h]
    · exact h0 r h

/-- Three stored rows at 0, 15, 30 minutes for asset 1, source 7. -/
def rows0 : List PowerRow := [⟨1, 7, 0, 2⟩, ⟨1, 7, 15, 3⟩, ⟨1, 7, 30, 4⟩]

/-- Witness for C2: requested 360 minutes, stored span 45 minutes, so the
returned schedule covers 45 minutes and all three values. -/
theorem C2_trim_witness :
    get_device_message_core 2880 360 asset0 3 "soc" (some job0) (some 7) rows0
      = .processed [2, 3, 4] 0 45 := by
  have h := (C2_trim 2880 360 asset0 3 "soc" job0 7 rows0 ⟨1, 7, 0, 2⟩
    [⟨1, 7, 15, 3⟩, ⟨1, 7, 30, 4⟩] (Or.inl rfl) (Or.inl rfl) rfl (by decide) (by decide)).1
  exact h.trans (by decide)

/-- The ordering validator only ever returns rejection responses. -/
theorem orderingReject_ne_processed (mp : Bool) (asset : Asset) (d e : Int) :
    orderingReject mp asset d e ≠ some PostResponse.request_processed := by
  by_cases hmp : mp = true
  · simp [orderingReject, hmp]
  · rcases hsd : asset.soc_datetime with _ | d0 <;>
      rcases hid : asset.soc_udi_event_id with _ | old <;>
      simp [orderingReject, outdatedCheck, hmp, hsd, hid] <;>
      try (split_ifs <;> simp)

/-- The target-series loop only ever fails with rejection responses. -/
theorem processTargets_ne_processed (unit : String) (cfg eos : Int) :
    ∀ (ts : List TargetForm) (acc : List (Int × Rat)),
      processTargets unit cfg eos ts acc ≠ .error PostResponse.request_processed := by
  intro ts
  induction ts with
  | nil => intro acc; simp [processTargets]
  | cons t ts ih =>
    intro acc
    rcases hv : t.value with _ | v
    · simp [processTargets, hv]
    rcases hd : t.datetime with _ | _ | _ | td <;>
      simp [processTargets, hv, hd] <;>
      try (split_ifs <;> simp [ih])

/-- Exhaustive shape analysis of the ingestion handler: either the request is
rejected (or dispatch fails) and the asset-store state is returned unchanged,
or the request is fully processed, the dispatch call succeeded, and the asset
state is the new `(datetime, event id, SOC in MWh)` tuple from the form. -/
theorem post_udi_event_state (mode_play : Bool) (cfg : Int) (unit : String) (form : UdiForm)
    (assetLookup : Option Asset) (can_access dOk : Bool) :
    ((post_udi_event mode_play cfg unit form assetLookup can_access dOk).1 ≠ .request_processed ∧
      (post_udi_event mode_play cfg unit form assetLookup can_access dOk).2 = assetLookup) ∨
    ((post_udi_event mode_play cfg unit form assetLookup can_access dOk).1 = .request_processed ∧
      dOk = true ∧
      ∃ dt ea v asset, form.datetime = .ok dt ∧ form.event = some (some ea) ∧
        form.value = some v ∧ assetLookup = some asset ∧
        (post_udi_event mode_play cfg unit form assetLookup can_access dOk).2
          = some { asset with
              soc_datetime := some dt,
              soc_udi_event_id := some ea.event_id,
              soc_in_mwh := some (if unit = "kWh" then v / 1000 else v) }) := by
  rcases hdt : form.datetime with _ | _ | _ | dt
  · left; simp [post_udi_event, hdt]
  · left; simp [post_udi_event, hdt]
  · left; simp [post_udi_event, hdt]
  rcases hev : form.event with _ | (_ | ea)
  · left; simp [post_udi_event, hdt, hev]
  · left; simp [post_udi_event, hdt, hev]
  by_cases hty : ea.event_type ≠ "soc" ∧ ea.event_type ≠ "soc-with-targets"
  · left; simp [post_udi_event, hdt, hev, hty]
  rcases assetLookup with _ | asset
  · left; simp [post_udi_event, hdt, hev, hty]
  cases can_access
  · left; simp [post_udi_event, hdt, hev, hty]
  by_cases hcls : asset.asset_type_name ≠ "battery" ∧ asset.asset_type_name ≠ "charging_station"
  · left; simp [post_udi_event, hdt, hev, hty, hcls]
  rcases horj : orderingReject mode_play asset dt ea.event_id with _ | r
  · rcases hval : form.value with _ | v
    · left; simp [post_udi_event, hdt, hev, hty, hcls, horj, hval]
    by_cases hsw : ea.event_type = "soc-with-targets"
    · rcases htg : form.targets with _ | ts
      · left; simp [post_udi_event, hdt, hev, hty, hcls, horj, hval, hsw, htg]
      rcases hpt : processTargets unit cfg (dt + cfg) ts [] with r | l
      · left
        have h1 : (post_udi_event mode_play cfg unit form (some asset) true dOk).1 = r := by
          simp [post_udi_event, hdt, hev, hty, hcls, horj, hval, hsw, htg, hpt]
        refine ⟨?_, by simp [post_udi_event, hdt, hev, hty, hcls, horj, hval, hsw, htg, hpt]⟩
        rw [h1]
        intro hr
        exact processTargets_ne_processed unit cfg (dt + cfg) ts [] (hr ▸ hpt)
      cases dOk
      · left; simp [post_udi_event, hdt, hev, hty, hcls, horj, hval, hsw, htg, hpt]
      · right
        refine ⟨?_, rfl, dt, ea, v, asset, rfl, rfl, rfl, rfl, ?_⟩ <;>
          simp [post_udi_event, hdt, hev, hty, hcls, horj, hval, hsw, htg, hpt]
    · have hesoc : ea.event_type = "soc" := by
        rcases not_and_or.mp hty with h | h
        · exact not_not.mp h
        · exact absurd (not_not.mp h) hsw
      cases dOk
      · left; simp [post_udi_event, hdt, hev, hty, hcls, horj, hval, hsw, hesoc]
      · right
        refine ⟨?_, rfl, dt, ea, v, asset, rfl, rfl, rfl, rfl, ?_⟩ <;>
          simp [post_udi_event, hdt, hev, hty, hcls, horj, hval, hsw, hesoc]
  · left
    have h1 : (post_udi_event mode_play cfg unit form (some asset) true dOk).1 = r := by
      simp [post_udi_event, hdt, hev, hty, hcls, horj]
    refine ⟨?_, by simp [post_udi_event, hdt, hev, hty, hcls, horj]⟩
    rw [h1]
    intro hr
    exact orderingReject_ne_processed mode_play asset dt ea.event_id (hr ▸ horj)

/-- A parsed event address for asset 1, event id 7, event type soc. -/
def ea0 : EventAddr := ⟨1, 7, "soc"⟩

/-- A fully valid ingestion form: datetime 100, event `ea0`, value 5, no
targets. -/
def form0 : UdiForm := ⟨.ok 100, some (some ea0), some 5, none⟩

/-- C4: the asset's last-known state is written as the new
`(datetime, eventId, SOC in MWh)` tuple only when the dispatch call returned
successfully and the request was fully processed; a failed dispatch, and
likewise every validation rejection, leaves the stored state entirely
unchanged. -/
theorem C4_state_update (mode_play : Bool) (cfg : Int) (unit : String) (form : UdiForm)
    (assetLookup : Option Asset) (can_access dOk : Bool) :
    (dOk = false →
      (post_udi_event mode_play cfg unit form assetLookup can_access dOk).2 = assetLookup) ∧
    ((post_udi_event mode_play cfg unit form assetLookup can_access dOk).1
        ≠ .request_processed →
      (post_udi_event mode_play cfg unit form assetLookup can_access dOk).2 = assetLookup) ∧
    (∀ dt ea v asset, form.datetime = .ok dt → form.event = some (some ea) →
      form.value = some v → assetLookup = some asset →
      (post_udi_event mode_play cfg unit form assetLookup can_access dOk).1
        = .request_processed →
      dOk = true ∧
      (post_udi_event mode_play cfg unit form assetLookup can_access dOk).2
        = some { asset with
            soc_datetime := some dt,
            soc_udi_event_id := some ea.event_id,
            soc_in_mwh := some (if unit = "kWh" then v / 1000 else v) }) := by
  rcases post_udi_event_state mode_play cfg unit form assetLookup can_access dOk with h | h
  · exact ⟨fun _ => h.2, fun _ => h.2, fun dt ea v asset _ _ _ _ h5 => absurd h5 h.1⟩
  · rcases h with ⟨hproc, hdok, dt', ea', v', asset', h1, h2, h3, h4, h5⟩
    refine ⟨fun hf => absurd hdok (by simp [hf]), fun hne => absurd hproc hne, ?_⟩
    intro dt ea v asset g1 g2 g3 g4 _
    rw [g1] at h1
    rw [g2] at h2
    rw [g3] at h3
    rw [g4] at h4
    injection h1 with h1
    injection h2 with h2
    injection h2 with h2
    injection h3 with h3
    injection h4 with h4
    subst h1
    subst h2
    subst h3
    subst h4
    exact ⟨hdok, h5⟩

/-- Witness for C4: a failed dispatch leaves the asset state unchanged. -/
theorem C4_state_update_witness :
    (post_udi_event false 2880 "MWh" form0 (some asset0) true false).2 = some asset0 :=
  (C4_state_update false 2880 "MWh" form0 (some asset0) true false).1 rfl

/-- C3: outside permissive mode, an event dated before the stored last event
datetime is rejected as stale independently of its event id; an event whose
id is not above the stored last event id (ties included) is rejected as
outdated once the stale check passes; in permissive mode both checks are
skipped (the response does not consult the stored ordering fields). -/
theorem C3_ordering (cfg : Int) (unit : String) (form : UdiForm) (asset : Asset)
    (ea : EventAddr) (dt : Int) (dOk : Bool)
    (hdt : form.datetime = .ok dt)
    (hev : form.event = some (some ea))
    (hty : ea.event_type = "soc" ∨ ea.event_type = "soc-with-targets")
    (hcls : asset.asset_type_name = "battery" ∨ asset.asset_type_name = "charging_station") :
    (∀ d, asset.soc_datetime = some d → dt < d →
      post_udi_event false cfg unit form (some asset) true dOk
        = (.invalid_datetime (staleMsg dt d), some asset)) ∧
    ((∀ d, asset.soc_datetime = some d → d ≤ dt) →
      ∀ old, asset.soc_udi_event_id = some old → ea.event_id ≤ old →
        post_udi_event false cfg unit form (some asset) true dOk
          = (.outdated_event_id ea.event_id old, some asset)) ∧
    ((post_udi_event true cfg unit form (some asset) true dOk).1
      = (post_udi_event true cfg unit form
          (some { asset with soc_datetime := none, soc_udi_event_id := none })
          true dOk).1) := by
  have hc1 : ¬(asset.asset_type_name ≠ "battery" ∧ asset.asset_type_name ≠ "charging_station") := by
    rcases hcls with h | h <;> simp [h]
  have hc2 : ¬(ea.event_type ≠ "soc" ∧ ea.event_type ≠ "soc-with-targets") := by
    rcases hty with h | h <;> simp [h]
  refine ⟨?_, ?_, ?_⟩
  · intro d hd hlt
    have horj : orderingReject false asset dt ea.event_id
        = some (.invalid_datetime (staleMsg dt d)) := by
      simp [orderingReject, hd, hlt]
    simp [post_udi_event, hdt, hev, hc1, hc2, horj]
  · intro hpass old hold hle
    have horj : orderingReject false asset dt ea.event_id
        = some (.outdated_event_id ea.event_id old) := by
      rcases hsd : asset.soc_datetime with _ | d
      · simp [orderingReject, outdatedCheck, hsd, hold, hle]
      · have hnlt : ¬ dt < d := not_lt.mpr (hpass d hsd)
        simp [orderingReject, outdatedCheck, hsd, hnlt, hold, hle]
    simp [post_udi_event, hdt, hev, hc1, hc2, horj]
  · have h1 : orderingReject true asset dt ea.event_id = none := by simp [orderingReject]
    have h2 : orderingReject true
        { asset with soc_datetime := none, soc_udi_event_id := none } dt ea.event_id
        = none := by simp [orderingReject]
    rcases hval : form.value with _ | v
    · simp [post_udi_event, hdt, hev, hc1, hc2, h1, h2, hval]
    by_cases hsw : ea.event_type = "soc-with-targets"
    · rcases htg : form.targets with _ | ts
      · simp [post_udi_event, hdt, hev, hc1, hc2, h1, h2, hval, hsw, htg]
      rcases hpt : processTargets unit cfg (dt + cfg) ts [] with r | l
      · simp [post_udi_event, hdt, hev, hc1, hc2, h1, h2, hval, hsw, htg, hpt]
      · cases dOk <;>
          simp [post_udi_event, hdt, hev, hc1, hc2, h1, h2, hval, hsw, htg, hpt]
    · have hesoc : ea.event_type = "soc" := by
        rcases not_and_or.mp hc2 with h | h
        · exact not_not.mp h
        · exact absurd (not_not.mp h) hsw
      cases dOk <;>
        simp [post_udi_event, hdt, hev, hc1, hc2, h1, h2, hval, hsw, hesoc]

/-- Witness for C3 at a concrete stale submission: datetime 100 earlier than
the stored 200. -/
theorem C3_ordering_witness :
    post_udi_event false 2880 "MWh" form0 (some asset1) true true
      = (.invalid_datetime (staleMsg 100 200), some asset1) :=
  (C3_ordering 2880 "MWh" form0 asset1 ea0 100 true rfl rfl (Or.inl rfl)
    (Or.inl rfl)).1 200 rfl (by decide)

/-- C10: when the device has no recorded last event datetime, the stale
check is skipped entirely in non-permissive mode — the response with any
submitted datetime equals the permissive-mode response whenever the event-id
check passes, and the event-id check alone can still reject. -/
theorem C10_no_last_datetime (cfg : Int) (unit : String) (form : UdiForm) (asset : Asset)
    (ea : EventAddr) (dt : Int) (dOk : Bool)
    (hdt : form.datetime = .ok dt)
    (hev : form.event = some (some ea))
    (hnone : asset.soc_datetime = none) :
    ((∀ old, asset.soc_udi_event_id = some old → old < ea.event_id) →
      post_udi_event false cfg unit form (some asset) true dOk
        = post_udi_event true cfg unit form (some asset) true dOk) ∧
    ((ea.event_type = "soc" ∨ ea.event_type = "soc-with-targets") →
      (asset.asset_type_name = "battery" ∨ asset.asset_type_name = "charging_station") →
      ∀ old, asset.soc_udi_event_id = some old → ea.event_id ≤ old →
        post_udi_event false cfg unit form (some asset) true dOk
          = (.outdated_event_id ea.event_id old, some asset)) := by
  constructor
  · intro hpass
    have horf : orderingReject false asset dt ea.event_id = none := by
      rcases hid : asset.soc_udi_event_id with _ | old
      · simp [orderingReject, outdatedCheck, hnone, hid]
      · have hngt : ¬ old ≥ ea.event_id := not_le.mpr (hpass old hid)
        simp [orderingReject, outdatedCheck, hnone, hid, hngt]
    have hort : orderingReject true asset dt ea.event_id = none := by
      simp [orderingReject]
    simp only [post_udi_event, hdt, hev, horf, hort]
  · intro hty hcls old hold hle
    have hc1 : ¬(asset.asset_type_name ≠ "battery" ∧ asset.asset_type_name ≠ "charging_station") := by
      rcases hcls with h | h <;> simp [h]
    have hc2 : ¬(ea.event_type ≠ "soc" ∧ ea.event_type ≠ "soc-with-targets") := by
      rcases hty with h | h <;> simp [h]
    have horj : orderingReject false asset dt ea.event_id
        = some (.outdated_event_id ea.event_id old) := by
      simp [orderingReject, outdatedCheck, hnone, hold, hle]
    simp [post_udi_event, hdt, hev, hc1, hc2, horj]

/-- Witness for C10: with no stored datetime and no stored event id, the
non-permissive response equals the permissive one. -/
theorem C10_no_last_datetime_witness :
    post_udi_event false 2880 "MWh" form0 (some asset0) true true
      = post_udi_event true 2880 "MWh" form0 (some asset0) true true :=
  (C10_no_last_datetime 2880 "MWh" form0 asset0 ea0 100 true rfl rfl rfl).1
    (fun old h => Option.noConfusion h)

/-- C9: a client target dated exactly `start + planningHorizon` is accepted
(the loop records it and continues), a target dated strictly later is
rejected with the horizon-exceeded datetime error, and an ingestion request
whose single target sits exactly on the horizon bound is fully processed. -/
theorem C9_target_horizon (unit : String) (cfg dt : Int) (v : Rat)
    (ts : List TargetForm) (acc : List (Int × Rat)) :
    (processTargets unit cfg (dt + cfg) (⟨some v, .ok (dt + cfg)⟩ :: ts) acc
      = processTargets unit cfg (dt + cfg) ts
          (acc ++ [(dt + cfg, if unit = "kWh" then v / 1000 else v)])) ∧
    (∀ td, dt + cfg < td →
      processTargets unit cfg (dt + cfg) (⟨some v, .ok td⟩ :: ts) acc
        = .error (.invalid_datetime (targetExceedsMsg (dt + cfg) cfg))) ∧
    (∀ (form : UdiForm) (asset : Asset) (ea : EventAddr),
      form.datetime = .ok dt → form.event = some (some ea) →
      ea.event_type = "soc-with-targets" →
      (asset.asset_type_name = "battery" ∨ asset.asset_type_name = "charging_station") →
      form.value = some v →
      form.targets = some [⟨some v, .ok (dt + cfg)⟩] →
      (post_udi_event true cfg unit form (some asset) true true).1
        = .request_processed) := by
  refine ⟨?_, ?_, ?_⟩
  · simp [processTargets, lt_irrefl]
  · intro td h
    simp [processTargets, h]
  · intro form asset ea hdt hev hsw hcls hval htg
    have hc1 : ¬(asset.asset_type_name ≠ "battery" ∧ asset.asset_type_name ≠ "charging_station") := by
      rcases hcls with h | h <;> simp [h]
    have hc2 : ¬(ea.event_type ≠ "soc" ∧ ea.event_type ≠ "soc-with-targets") := by
      simp [hsw]
    have hort : orderingReject true asset dt ea.event_id = none := by
      simp [orderingReject]
    simp [post_udi_event, hdt, hev, hc1, hc2, hort, hval, hsw, htg, processTargets,
      lt_irrefl]

/-- Witness for C9: a target 15 minutes past the horizon bound is rejected. -/
theorem C9_target_horizon_witness :
    processTargets "MWh" 2880 (0 + 2880) [⟨some 5, .ok 2895⟩] []
      = .error (.invalid_datetime (targetExceedsMsg (0 + 2880) 2880)) :=
  ((C9_target_horizon "MWh" 2880 0 5 [] []).2).1 2895 (by decide)

end Bvp
